import Mathlib

/-!
Verification of the Nutrition Rollup & Shopping Aggregation Engine of the
MealInsights repository, as a shallow embedding in Lean 4.

The embedded code lives in:
  * `app/ingredients_and_products/services.py`
    (`IngredientService._get_unit_conversion_factor`,
     `IngredientService.calculate_ingredient_nutrition_for_quantity`),
  * `app/meals/services.py` (`MealService._calculate_meal_nutrition`),
  * `app/shopping/repositories.py` (`ShoppingRepository.aggregate_shopping_items`),
  * `app/shopping/services.py` (`ShoppingService._sort_shopping_items`),
  * `app/shopping/models.py` (`ShoppingListItem`),
  * `app/enums.py` (`UnitEnum`).

Python floats are modelled as exact rationals (no claim below depends on binary
floating-point rounding), Python strings as Lean `String` compared by code
point exactly as CPython compares `str`, Python `dict` (insertion ordered) as
an association list, and Python `set` as an insertion-ordered list without
duplicates (claims compare these only up to membership).
-/

deriving instance DecidableEq for Except

set_option maxRecDepth 40000

namespace MealInsights

/-! ### Python string primitives

CPython compares `str` values lexicographically by Unicode code point.  Lean's
built-in `String` order is the same order, but its `Decidable` instance is
kernel-opaque, so we embed the comparison directly on the underlying
character lists. -/

/-- Lexicographic strict comparison of character lists by code point,
exactly CPython's `str.__lt__`. -/
def pyStrLtAux : List Char → List Char → Bool
  | [], [] => false
  | [], _ :: _ => true
  | _ :: _, [] => false
  | a :: as, b :: bs =>
    if a.toNat < b.toNat then true
    else if b.toNat < a.toNat then false
    else pyStrLtAux as bs

/-- Python `s < t` on strings. -/
def pyStrLt (s t : String) : Bool := pyStrLtAux s.data t.data

/-- Python `s <= t` on strings (total order: the negation of `t < s`). -/
def pyStrLe (s t : String) : Bool := ! pyStrLt t s

/-- ASCII lower-casing of one character: CPython `str.lower` restricted to
ASCII, which covers every string the embedded code paths are exercised on. -/
def pyCharLower (c : Char) : Char :=
  if 65 ≤ c.toNat ∧ c.toNat ≤ 90 then Char.ofNat (c.toNat + 32) else c

/-- Python `s.lower()` (ASCII range). -/
def pyLower (s : String) : String := String.mk (s.data.map pyCharLower)

/-- Python `x or d` for an optional string `x`: `None` and the empty string
are falsy, any other string is returned unchanged. -/
def pyOrElse (x : Option String) (d : String) : String :=
  match x with
  | none => d
  | some s => if s = "" then d else s

/-! ### Python `float(...)` on strings

`float(s)` accepts an optionally signed decimal literal with an optional
fraction and an optional exponent, surrounded by optional whitespace; every
other string raises `ValueError`.  (The special forms `inf`/`nan` and digit
group underscores are not modelled; no embedded claim touches them.)  The
result is modelled as the exact rational value of the literal. -/

/-- ASCII decimal digit test. -/
def isDigitChar (c : Char) : Bool := 48 ≤ c.toNat && c.toNat ≤ 57

/-- Python whitespace test (space, tab, newline, carriage return, vertical
tab, form feed). -/
def isSpaceChar (c : Char) : Bool :=
  c.toNat = 32 || c.toNat = 9 || c.toNat = 10 || c.toNat = 13 ||
  c.toNat = 11 || c.toNat = 12

/-- The natural number denoted by a list of decimal digit characters. -/
def digitsToNat (cs : List Char) : Nat :=
  cs.foldl (fun n c => 10 * n + (c.toNat - 48)) 0

/-- Apply a decimal exponent to a mantissa. -/
def expApply (q : ℚ) (neg : Bool) (e : Nat) : ℚ :=
  if neg then q / 10 ^ e else q * 10 ^ e

/-- Parse the optional exponent suffix of a float literal; the whole rest of
the input must be consumed. -/
def parseExpPart (q : ℚ) : List Char → Option ℚ
  | [] => some q
  | c :: rest =>
    if c = 'e' ∨ c = 'E' then
      let sd : Bool × List Char :=
        match rest with
        | '+' :: r => (false, r)
        | '-' :: r => (true, r)
        | r => (false, r)
      if sd.2 ≠ [] ∧ sd.2.all isDigitChar then
        some (expApply q sd.1 (digitsToNat sd.2))
      else none
    else none

/-- Parse the unsigned mantissa `digits [. digits]` of a float literal,
returning its value and the unconsumed rest. -/
def parseMantissa (cs : List Char) : Option (ℚ × List Char) :=
  let ip := cs.takeWhile isDigitChar
  let r1 := cs.dropWhile isDigitChar
  match r1 with
  | '.' :: r2 =>
    let fp := r2.takeWhile isDigitChar
    let r3 := r2.dropWhile isDigitChar
    if ip.isEmpty && fp.isEmpty then none
    else some ((digitsToNat ip : ℚ) + (digitsToNat fp : ℚ) / 10 ^ fp.length, r3)
  | _ => if ip.isEmpty then none else some ((digitsToNat ip : ℚ), r1)

/-- Unsigned float literal: mantissa followed by optional exponent. -/
def parseFloatChars (cs : List Char) : Option ℚ :=
  match parseMantissa cs with
  | none => none
  | some (q, rest) => parseExpPart q rest

/-- Python `float(s)`: `some` value on success, `none` where CPython raises
`ValueError`. -/
def pyFloat? (s : String) : Option ℚ :=
  let cs := ((s.data.dropWhile isSpaceChar).reverse.dropWhile isSpaceChar).reverse
  match cs with
  | '+' :: r => parseFloatChars r
  | '-' :: r => (parseFloatChars r).map (fun q => -q)
  | r => parseFloatChars r

/-! ### Unit conversion
(`IngredientService._get_unit_conversion_factor`, services.py lines 311-330)

`UnitEnum` (app/enums.py) is a `str`-valued enum, so its members hash and
compare as their underlying strings; the conversion dict is therefore
modelled as an association list keyed by those strings, in the order the
source writes the dict literal. -/

/-- The static conversion table of
`IngredientService._get_unit_conversion_factor`, one entry per line of the
`conversion_factors` dict literal (28.35 and 453.6 as exact rationals). -/
def conversion_factors : List (String × ℚ) :=
  [("g", 1), ("ml", 1), ("kg", 1000), ("l", 1000), ("piece", 100),
   ("tbsp", 15), ("tsp", 5), ("cup", 240), ("oz", 2835 / 100), ("lb", 4536 / 10)]

/-- The ten values of `UnitEnum` (app/enums.py lines 45-60), in declaration
order. -/
def unitEnumValues : List String :=
  ["g", "ml", "piece", "tbsp", "tsp", "cup", "oz", "lb", "kg", "l"]

/-- The failure raised for a unit that has no conversion factor
(`raise ValueError(f"Unit conversion not supported for: ...")`), the
`UnsupportedUnit` condition of the spec's error taxonomy. -/
inductive ConversionError where
  | unsupportedUnit (unit : String)
deriving DecidableEq, Repr

/-- `IngredientService._get_unit_conversion_factor`: look the unit up in the
static dict; `None` → `ValueError`, otherwise return the factor. -/
def _get_unit_conversion_factor (unit : String) : Except ConversionError ℚ :=
  match conversion_factors.lookup unit with
  | none => .error (.unsupportedUnit unit)
  | some f => .ok f

/-- The quantity-to-base-units conversion
`quantity_in_g_or_ml = quantity * conversion_factor` performed by
`calculate_ingredient_nutrition_for_quantity` (services.py line 278). -/
def toBaseQuantity (q : ℚ) (unit : String) : Except ConversionError ℚ :=
  (_get_unit_conversion_factor unit).map (fun f => q * f)

/-! ### Rounding

`_calculate_meal_nutrition` rounds its final totals with Python's
`round(x, 2)` (round-half-to-even).  Modelled exactly on the rational value;
the floor is written with `Int.fdiv` so that it evaluates by kernel
reduction. -/

/-- `⌊q⌋` as a computable integer (`Int.fdiv` is floor division). -/
def ratFloorZ (q : ℚ) : ℤ := q.num.fdiv (q.den : ℤ)

/-- Round to the nearest integer, ties to even (Python's `round`). -/
def roundHalfEven (q : ℚ) : ℤ :=
  let f := ratFloorZ q
  let r := q - (f : ℚ)
  if r < 1 / 2 then f
  else if (1 : ℚ) / 2 < r then f + 1
  else if f % 2 = 0 then f else f + 1

/-- Python `round(q, 2)`. -/
def pyRound2 (q : ℚ) : ℚ := (roundHalfEven (q * 100) : ℚ) / 100

/-! ### Nutrition data model
(`app/models.py`, `app/meals/models.py`, `app/ingredients_and_products/models.py`) -/

/-- `Macros` (app/models.py): the six macronutrient fields, all per 100 g or
100 ml. -/
structure Macros where
  protein_g : ℚ
  carbohydrates_g : ℚ
  sugar_g : ℚ
  fat_g : ℚ
  fiber_g : ℚ
  saturated_fat_g : ℚ
deriving DecidableEq, Repr

/-- `Macros(protein=0, carbohydrates=0, sugar=0, fat=0, fiber=0,
saturated_fat=0)` as built in `_calculate_meal_nutrition` for a product
without macros. -/
def zeroMacros : Macros := ⟨0, 0, 0, 0, 0, 0⟩

/-- The fields of an `Ingredient` (ingredients_and_products/models.py) read
by the nutrition calculations. -/
structure IngredientInfo where
  calories_per_100g_or_ml : ℚ
  macros_per_100g_or_ml : Macros

/-- The fields of a `Product` read by `_calculate_meal_nutrition`; both are
optional in the model. -/
structure ProductInfo where
  calories_per_100g_or_ml : Option ℚ
  macros_per_100g_or_ml : Option Macros

/-- `MealIngredient` (meals/models.py lines 11-24): one composition line of a
meal.  `item_id` is a UUID in the source, modelled as `Nat`; `unit` is a
`UnitEnum`, modelled as its string value.  The pydantic model validates
`quantity > 0` at construction; the embedding carries the raw field. -/
structure MealIngredient where
  item_id : Nat
  item_type : String
  item_name : String
  quantity : ℚ
  unit : String
deriving DecidableEq, Repr

/-- The catalog collaborator: `self.ingredient_repository.get_by_id` and
`self.product_repository.get_by_id` as pure lookups. -/
structure Catalog where
  ingredient : Nat → Option IngredientInfo
  product : Nat → Option ProductInfo

/-- The per-line resolution step of `_calculate_meal_nutrition`
(meals/services.py lines 303-320): item type `"ingredient"` looks up the
ingredient catalog and takes its profile; *any other* item type takes the
`else` branch and looks up the product catalog, defaulting missing calories
to `0` and missing macros to the zero `Macros` (the Python `or` defaults).
A failed lookup yields `none`, which the caller skips (`continue`). -/
def resolveLine (cat : Catalog) (mi : MealIngredient) : Option (ℚ × Macros) :=
  if mi.item_type = "ingredient" then
    (cat.ingredient mi.item_id).map
      (fun i => (i.calories_per_100g_or_ml, i.macros_per_100g_or_ml))
  else
    (cat.product mi.item_id).map
      (fun p => (p.calories_per_100g_or_ml.getD 0, p.macros_per_100g_or_ml.getD zeroMacros))

/-- The seven running totals of `_calculate_meal_nutrition`. -/
structure RunningSums where
  calories : ℚ
  protein : ℚ
  carbs : ℚ
  sugar : ℚ
  fat : ℚ
  fiber : ℚ
  saturated : ℚ
deriving DecidableEq, Repr

/-- One iteration of the loop of `_calculate_meal_nutrition`: skip the line
when the lookup fails, otherwise accumulate `value * quantity_factor` with
`quantity_factor = quantity / 100.0` — the line's `unit` field is never
consulted. -/
def addLineToSums (cat : Catalog) (acc : RunningSums) (mi : MealIngredient) : RunningSums :=
  match resolveLine cat mi with
  | none => acc
  | some (cal, mac) =>
    let qf := mi.quantity / 100
    { calories := acc.calories + cal * qf
      protein := acc.protein + mac.protein_g * qf
      carbs := acc.carbs + mac.carbohydrates_g * qf
      sugar := acc.sugar + mac.sugar_g * qf
      fat := acc.fat + mac.fat_g * qf
      fiber := acc.fiber + mac.fiber_g * qf
      saturated := acc.saturated + mac.saturated_fat_g * qf }

/-- The outputs `meal.calories_total` and `meal.macros_total` written by
`_calculate_meal_nutrition`. -/
structure MealNutritionTotals where
  calories_total : ℚ
  macros_total : Macros
deriving DecidableEq, Repr

/-- `MealService._calculate_meal_nutrition` (meals/services.py lines
293-343): fold the composition lines into running sums starting from all
zeroes, then round every total to 2 decimals. -/
def _calculate_meal_nutrition (cat : Catalog) (ingredients : List MealIngredient) :
    MealNutritionTotals :=
  let s := ingredients.foldl (addLineToSums cat) ⟨0, 0, 0, 0, 0, 0, 0⟩
  { calories_total := pyRound2 s.calories
    macros_total :=
      { protein_g := pyRound2 s.protein
        carbohydrates_g := pyRound2 s.carbs
        sugar_g := pyRound2 s.sugar
        fat_g := pyRound2 s.fat
        fiber_g := pyRound2 s.fiber
        saturated_fat_g := pyRound2 s.saturated } }

/-! ### Ingredient-level nutrition calculator
(`IngredientService.calculate_ingredient_nutrition_for_quantity`,
ingredients_and_products/services.py lines 253-290) -/

/-- The failures of `calculate_ingredient_nutrition_for_quantity`:
`InvalidQuantityError(quantity)` for a non-positive quantity, and the
`ValueError` propagated from `_get_unit_conversion_factor`. -/
inductive NutritionCalcError where
  | invalidQuantity (q : ℚ)
  | unsupportedUnit (unit : String)
deriving DecidableEq, Repr

/-- The dict returned by `calculate_ingredient_nutrition_for_quantity`. -/
structure IngredientNutritionResult where
  calories : ℚ
  protein_g : ℚ
  carbohydrates_g : ℚ
  fat_g : ℚ
  quantity : ℚ
  unit : String
deriving DecidableEq, Repr

/-- `IngredientService.calculate_ingredient_nutrition_for_quantity`: reject
`quantity <= 0` with `InvalidQuantityError`; convert the quantity to base
units via the static table; scale calories, protein, carbohydrates and fat
by `ratio = quantity_in_g_or_ml / 100.0`. -/
def calculate_ingredient_nutrition_for_quantity (ing : IngredientInfo) (quantity : ℚ)
    (unit : String) : Except NutritionCalcError IngredientNutritionResult :=
  if quantity ≤ 0 then .error (.invalidQuantity quantity)
  else
    match _get_unit_conversion_factor unit with
    | .error (.unsupportedUnit u) => .error (.unsupportedUnit u)
    | .ok conversion_factor =>
      let quantity_in_g_or_ml := quantity * conversion_factor
      let ratio := quantity_in_g_or_ml / 100
      .ok { calories := ing.calories_per_100g_or_ml * ratio
            protein_g := ing.macros_per_100g_or_ml.protein_g * ratio
            carbohydrates_g := ing.macros_per_100g_or_ml.carbohydrates_g * ratio
            fat_g := ing.macros_per_100g_or_ml.fat_g * ratio
            quantity := quantity
            unit := unit }

/-! ### Shopping aggregation
(`ShoppingRepository.aggregate_shopping_items`, shopping/repositories.py
lines 98-148, and `ShoppingListItem`, shopping/models.py lines 9-32) -/

/-- One record of the `assignments` list fed to `aggregate_shopping_items`
(the row dicts built by `get_meal_assignments_for_range`).  Only the six keys
the aggregation reads are modelled; the remaining row keys (`meal_type`,
`specific_time`, `notes`, `meal_id`, `meal_description`, `ingredient_id`)
are never touched by it.  `planned_date` is a `date` in the source, modelled
as its ISO string; `quantity` is the raw database value that the code feeds
to `float(...)`. -/
structure AssignmentRow where
  planned_date : String
  meal_name : String
  ingredient_name : String
  quantity : String
  unit : String
  preferred_shop : Option String
deriving DecidableEq, Repr

/-- The per-key accumulator dict of `aggregate_shopping_items` (lines
113-121).  `total_quantity` starts at `0.0` and, despite the inline comment,
only ever holds a float: the `except` arm of the quantity parse is a bare
`pass`.  `planned_meals` and `planned_dates` are Python sets, modelled as
insertion-ordered duplicate-free lists. -/
structure GroupData where
  ingredient_name : String
  unit : String
  total_quantity : ℚ
  shop_suggestion : Option String
  planned_meals : List String
  planned_dates : List String
deriving DecidableEq, Repr

/-- The grouping key `f"{assignment['ingredient_name']}_{assignment['unit']}"`
(line 111). -/
def groupKey (a : AssignmentRow) : String := a.ingredient_name ++ "_" ++ a.unit

/-- `set.add` on the insertion-ordered model of a Python set. -/
def setAdd (l : List String) (x : String) : List String :=
  if l.contains x then l else l ++ [x]

/-- The fresh group created when a key is first seen (lines 113-121):
`total_quantity` is `0.0` and `shop_suggestion` is this first line's
`preferred_shop`, whatever it is. -/
def initGroup (a : AssignmentRow) : GroupData :=
  { ingredient_name := a.ingredient_name
    unit := a.unit
    total_quantity := 0
    shop_suggestion := a.preferred_shop
    planned_meals := []
    planned_dates := [] }

/-- The updates applied to a group for one assignment line (lines 123-133):
`try: float(quantity)` added to the total on success, `except ...: pass` on
failure (the quantity is silently dropped), then the meal name and date are
added to the two sets. -/
def addAssignment (g : GroupData) (a : AssignmentRow) : GroupData :=
  { g with
    total_quantity :=
      match pyFloat? a.quantity with
      | some q => g.total_quantity + q
      | none => g.total_quantity
    planned_meals := setAdd g.planned_meals a.meal_name
    planned_dates := setAdd g.planned_dates a.planned_date }

/-- One iteration of the aggregation loop over an insertion-ordered dict
modelled as an association list: insert a fresh group if the key is new,
then apply the updates to the entry at that key. -/
def aggStep (m : List (String × GroupData)) (a : AssignmentRow) :
    List (String × GroupData) :=
  let k := groupKey a
  let m1 := if m.any (fun p => p.1 == k) then m else m ++ [(k, initGroup a)]
  m1.map (fun p => if p.1 == k then (p.1, addAssignment p.2 a) else p)

/-- The aggregation loop of `aggregate_shopping_items` (lines 108-133)
followed by `aggregated.values()`: the per-key group data in key insertion
order, before the `ShoppingListItem` constructor calls. -/
def aggregateGroups (assignments : List AssignmentRow) : List GroupData :=
  (assignments.foldl aggStep []).map Prod.snd

/-- `ShoppingListItem` (shopping/models.py lines 9-32).  `ingredient_id` is
a required UUID field, modelled as a `String`; `category`, `estimated_cost`
and `shop_suggestion` are optional; `notes` defaults to `""`. -/
structure ShoppingListItem where
  ingredient_id : String
  ingredient_name : String
  total_quantity : String
  unit : String
  category : Option String
  estimated_cost : Option ℚ
  notes : String
  shop_suggestion : Option String
  planned_meals : List String
  planned_dates : List String
deriving DecidableEq, Repr

/-- Pydantic v2 validation failure on model construction. -/
inductive PydanticValidationError where
  | missingRequiredField (fieldName : String)
deriving DecidableEq, Repr

/-- The ten digits written by `str(total)` after the decimal point, by
repeated multiplication by 10 (the totals reaching it are finite decimals,
so the expansion terminates well inside the fuel). -/
def decDigitsAux : Nat → ℚ → List Char
  | 0, _ => []
  | n + 1, q =>
    if q = 0 then []
    else
      let d := (ratFloorZ (q * 10)).toNat
      Char.ofNat (48 + d) :: decDigitsAux n (q * 10 - ((ratFloorZ (q * 10) : ℤ) : ℚ))

/-- Python `str(x)` for the float total of a group: sign, integer part, a
decimal point, and the fractional digits (`".0"` when the value is
integral), e.g. `str(125.0) == "125.0"`. -/
def pyStrOfFloat (q : ℚ) : String :=
  let sign := if q < 0 then "-" else ""
  let aq := if q < 0 then -q else q
  let ip := (ratFloorZ aq).toNat
  let fr := aq - ((ratFloorZ aq : ℤ) : ℚ)
  let ds := decDigitsAux 32 fr
  sign ++ toString ip ++ "." ++ (if ds.isEmpty then "0" else String.mk ds)

/-- The `ShoppingListItem(...)` constructor call at repositories.py lines
138-145, as pydantic v2 validates it.  The call site passes exactly six
keyword arguments; `ingredient_id` — a required field with no default — is
not among them, so validation fails with a `ValidationError` naming
`ingredient_id` as missing.  (The call also passes `date` objects for the
`list[str]` field `planned_dates`; the missing required field alone already
fails validation, so only that first error is modelled.) -/
def mkShoppingListItem (ingredient_id : Option String) (ingredient_name : String)
    (total_quantity : String) (unit : String) (shop_suggestion : Option String)
    (planned_meals planned_dates : List String) :
    Except PydanticValidationError ShoppingListItem :=
  match ingredient_id with
  | none => .error (.missingRequiredField "ingredient_id")
  | some iid =>
    .ok { ingredient_id := iid
          ingredient_name := ingredient_name
          total_quantity := total_quantity
          unit := unit
          category := none
          estimated_cost := none
          notes := ""
          shop_suggestion := shop_suggestion
          planned_meals := planned_meals
          planned_dates := planned_dates }

/-- `ShoppingRepository.aggregate_shopping_items` (lines 98-148) end to end:
aggregate the rows into groups, then build a `ShoppingListItem` from each
group in order — the constructor calls pass no `ingredient_id`, so the first
group (if any) raises. -/
def aggregate_shopping_items (assignments : List AssignmentRow) :
    Except PydanticValidationError (List ShoppingListItem) :=
  (aggregateGroups assignments).mapM (fun g =>
    mkShoppingListItem none g.ingredient_name (pyStrOfFloat g.total_quantity)
      g.unit g.shop_suggestion g.planned_meals g.planned_dates)

/-! ### Shopping list sorting
(`ShoppingService._sort_shopping_items`, shopping/services.py lines 143-183,
and `ShoppingListSortBy`, shopping/enums.py) -/

/-- `ShoppingListSortBy` (shopping/enums.py). -/
inductive ShoppingListSortBy where
  | ingredient_name
  | quantity
  | shop_suggestion
  | meal_name
  | planned_date
deriving DecidableEq, Repr

/-- The sort key `x.ingredient_name.lower()`. -/
def nameKey (x : ShoppingListItem) : String := pyLower x.ingredient_name

/-- The sort key `x.shop_suggestion or "zzz"`. -/
def shopKey (x : ShoppingListItem) : String := pyOrElse x.shop_suggestion "zzz"

/-- The numeric value `float(x.total_quantity)` used by the quantity sort;
only consulted on the branch where every quantity parses, so the `getD`
default is never observed there. -/
def quantityNum (x : ShoppingListItem) : ℚ := (pyFloat? x.total_quantity).getD 0

/-- Ascending comparison by lower-cased ingredient name. -/
def nameLe (a b : ShoppingListItem) : Bool := pyStrLe (nameKey a) (nameKey b)

/-- Ascending comparison by the key tuple
`(x.shop_suggestion or "zzz", x.ingredient_name.lower())`, compared the way
Python compares tuples. -/
def shopPairLe (a b : ShoppingListItem) : Bool :=
  pyStrLt (shopKey a) (shopKey b) ||
    (shopKey a == shopKey b && pyStrLe (nameKey a) (nameKey b))

/-- The comparison realised by `sorted(key=float(...), reverse=True)`:
descending by numeric value. -/
def quantityDescLe (a b : ShoppingListItem) : Bool :=
  decide (quantityNum b ≤ quantityNum a)

/-- The comparison of the string-fallback branch: ascending by the raw
`total_quantity` strings. -/
def quantityStrLe (a b : ShoppingListItem) : Bool :=
  pyStrLe a.total_quantity b.total_quantity

/-- Ascending comparison by `x.planned_meals[0] if x.planned_meals else "zzz"`. -/
def mealNameLe (a b : ShoppingListItem) : Bool :=
  pyStrLe (a.planned_meals.headD "zzz") (b.planned_meals.headD "zzz")

/-- Ascending comparison by `x.planned_dates[0] if x.planned_dates else
date.max`, on ISO date strings (`date.max` is `9999-12-31`). -/
def plannedDateLe (a b : ShoppingListItem) : Bool :=
  pyStrLe (a.planned_dates.headD "9999-12-31") (b.planned_dates.headD "9999-12-31")

/-- Python `sorted(items, key=k)`: the stable ascending sort with respect to
a total preorder.  CPython's Timsort is modelled by insertion sort, which
computes the same (unique) stable result. -/
def pySorted (f : α → α → Bool) (l : List α) : List α :=
  List.insertionSort (fun a b => f a b = true) l

/-- `ShoppingService._sort_shopping_items` (shopping/services.py lines
143-183).  On the `QUANTITY` branch, CPython's `sorted` computes every key
before comparing, so a single unparsable quantity raises `ValueError` out of
the numeric sort and the `except` arm re-sorts the whole list by the raw
strings; the guard below models that all-or-nothing behaviour. -/
def _sort_shopping_items (items : List ShoppingListItem)
    (sort_by : ShoppingListSortBy) : List ShoppingListItem :=
  match sort_by with
  | .ingredient_name => pySorted nameLe items
  | .shop_suggestion => pySorted shopPairLe items
  | .quantity =>
    if items.all (fun x => (pyFloat? x.total_quantity).isSome) then
      pySorted quantityDescLe items
    else
      pySorted quantityStrLe items
  | .meal_name => pySorted mealNameLe items
  | .planned_date => pySorted plannedDateLe items

/-! ### Derived quantities of the aggregation loop

The invariant the aggregation theorems below rest on. -/

/-- The numeric contribution of one assignment line to its group's total:
its parsed quantity, or `0` when the parse fails (the `except: pass` adds
nothing). -/
def qtyVal (r : AssignmentRow) : ℚ := (pyFloat? r.quantity).getD 0

/-- Sum of the contributions of the lines with grouping key `k`. -/
def keySum (rows : List AssignmentRow) (k : String) : ℚ :=
  ((rows.filter (fun r => groupKey r == k)).map qtyVal).sum

/-- The first line (in encounter order) with grouping key `k`. -/
def keyFirst (rows : List AssignmentRow) (k : String) : Option AssignmentRow :=
  rows.find? (fun r => groupKey r == k)

/-- The relation between one dict entry and the rows processed so far: the
key is the group's name joined to its unit by `"_"`, the total is the sum of
the parsed quantities of the key's lines, and the group's name, unit and
shop suggestion all come from the key's first line. -/
def GroupInv (rows : List AssignmentRow) (p : String × GroupData) : Prop :=
  p.1 = p.2.ingredient_name ++ "_" ++ p.2.unit ∧
  p.2.total_quantity = keySum rows p.1 ∧
  ∃ r0, keyFirst rows p.1 = some r0 ∧ p.2.shop_suggestion = r0.preferred_shop ∧
    p.2.ingredient_name = r0.ingredient_name ∧ p.2.unit = r0.unit

/-- The loop invariant of `aggregate_shopping_items`: every dict entry
satisfies `GroupInv`, and every processed row has an entry for its key. -/
def AggInv (rows : List AssignmentRow) (m : List (String × GroupData)) : Prop :=
  (∀ p ∈ m, GroupInv rows p) ∧ ∀ r ∈ rows, ∃ p ∈ m, p.1 = groupKey r

/-! ### Concrete inputs used by the witnesses and counterexamples below -/

/-- A `ShoppingListItem` with the fields the sorter reads; the rest are the
model's defaults. -/
def mkSortItem (nm qty : String) (shop : Option String) : ShoppingListItem :=
  ⟨"id-0", nm, qty, "g", none, none, "", shop, [], []⟩

/-- A one-ingredient catalog: item 1 has 100 kcal and sample macros per
100 g. -/
def c2Cat : Catalog :=
  ⟨fun i => if i = 1 then some ⟨100, ⟨10, 20, 5, 3, 2, 1⟩⟩ else none, fun _ => none⟩

/-- Three all-numeric assignment rows: two Oats lines and one Rice line. -/
def c4WitnessRows : List AssignmentRow :=
  [⟨"2025-03-01", "Porridge", "Oats", "50", "g", none⟩,
   ⟨"2025-03-01", "Stew", "Rice", "40", "g", none⟩,
   ⟨"2025-03-02", "Granola", "Oats", "75", "g", none⟩]

/-- The Oats group produced from `c4WitnessRows`. -/
def c4OatsGroup : GroupData :=
  ⟨"Oats", "g", 125, none, ["Porridge", "Granola"], ["2025-03-01", "2025-03-02"]⟩

/-- Two Milk rows sharing one key: the first carries no shop hint, the
second names "Market". -/
def c5Rows : List AssignmentRow :=
  [⟨"2025-03-01", "MealA", "Milk", "1", "l", none⟩,
   ⟨"2025-03-02", "MealB", "Milk", "1", "l", some "Market"⟩]

/-- The Milk group produced from `c5Rows`. -/
def c5MilkGroup : GroupData :=
  ⟨"Milk", "l", 2, none, ["MealA", "MealB"], ["2025-03-01", "2025-03-02"]⟩

/-- A sample ingredient profile: 100 kcal and sample macros per 100 g. -/
def c9Ing : IngredientInfo := ⟨100, ⟨10, 20, 5, 3, 2, 1⟩⟩

/-- The empty catalog: every lookup fails. -/
def c10Cat : Catalog := ⟨fun _ => none, fun _ => none⟩

/-! ## Supporting lemmas

First the order-theoretic facts about the embedded Python string comparison,
then the sorting, aggregation and nutrition lemmas the claim theorems build
on. -/

theorem charToNat_inj {a b : Char} (h : a.toNat = b.toNat) : a = b := by
  apply Char.ext
  apply UInt32.ext
  exact h

theorem pyStrLtAux_irrefl : ∀ cs, pyStrLtAux cs cs = false
  | [] => rfl
  | c :: cs => by simp [pyStrLtAux, pyStrLtAux_irrefl cs]

theorem pyStrLtAux_trans (as : List Char) : ∀ bs cs,
    pyStrLtAux as bs = true → pyStrLtAux bs cs = true → pyStrLtAux as cs = true := by
  induction as with
  | nil =>
    intro bs cs h1 h2
    cases bs with
    | nil => simp [pyStrLtAux] at h1
    | cons b bs =>
      cases cs with
      | nil => simp [pyStrLtAux] at h2
      | cons c cs => simp [pyStrLtAux]
  | cons a as ih =>
    intro bs cs h1 h2
    cases bs with
    | nil => simp [pyStrLtAux] at h1
    | cons b bs =>
      cases cs with
      | nil => simp [pyStrLtAux] at h2
      | cons c cs =>
        simp only [pyStrLtAux] at h1 h2 ⊢
        rcases Nat.lt_trichotomy a.toNat c.toNat with hac | hac | hac
        · simp [hac]
        · rw [if_neg (by omega), if_neg (by omega)]
          split_ifs at h1 h2 with h3 h4 h5 h6 <;> try omega
          exact ih bs cs h1 h2
        · exfalso
          split_ifs at h1 h2 with h3 h4 h5 h6 <;> omega

theorem pyStrLtAux_trichotomy (as : List Char) : ∀ bs,
    pyStrLtAux as bs = true ∨ as = bs ∨ pyStrLtAux bs as = true := by
  induction as with
  | nil => intro bs; cases bs <;> simp [pyStrLtAux]
  | cons a as ih =>
    intro bs
    cases bs with
    | nil => simp [pyStrLtAux]
    | cons b bs =>
      rcases Nat.lt_trichotomy a.toNat b.toNat with h | h | h
      · left
        simp [pyStrLtAux, h]
      · have hab : a = b := charToNat_inj h
        subst hab
        rcases ih bs with h2 | h2 | h2
        · left
          simp [pyStrLtAux, h2]
        · right; left
          rw [h2]
        · right; right
          simp [pyStrLtAux, h2]
      · right; right
        simp [pyStrLtAux, h]

theorem pyStrLt_irrefl (s : String) : pyStrLt s s = false := pyStrLtAux_irrefl s.data

theorem pyStrLt_trans {s t u : String} (h1 : pyStrLt s t = true)
    (h2 : pyStrLt t u = true) : pyStrLt s u = true :=
  pyStrLtAux_trans s.data t.data u.data h1 h2

theorem pyStrLt_trichotomy (s t : String) :
    pyStrLt s t = true ∨ s = t ∨ pyStrLt t s = true := by
  rcases pyStrLtAux_trichotomy s.data t.data with h | h | h
  · exact Or.inl h
  · exact Or.inr (Or.inl (String.ext h))
  · exact Or.inr (Or.inr h)

theorem pyStrLt_asymm {s t : String} (h1 : pyStrLt s t = true) :
    pyStrLt t s = false := by
  by_contra hc
  have h2 : pyStrLt t s = true := by
    cases hts : pyStrLt t s
    · exact absurd hts hc
    · rfl
  have h3 := pyStrLt_trans h1 h2
  rw [pyStrLt_irrefl s] at h3
  exact Bool.false_ne_true h3

theorem pyStrLe_refl (s : String) : pyStrLe s s = true := by
  simp [pyStrLe, pyStrLt_irrefl]

theorem pyStrLe_total (s t : String) : pyStrLe s t = true ∨ pyStrLe t s = true := by
  rcases pyStrLt_trichotomy s t with h | h | h
  · left
    simp [pyStrLe, pyStrLt_asymm h]
  · subst h
    left
    exact pyStrLe_refl s
  · right
    simp [pyStrLe, pyStrLt_asymm h]

theorem pyStrLe_trans {s t u : String} (h1 : pyStrLe s t = true)
    (h2 : pyStrLe t u = true) : pyStrLe s u = true := by
  simp only [pyStrLe, Bool.not_eq_true'] at h1 h2 ⊢
  by_contra hc
  have hus : pyStrLt u s = true := by
    cases h : pyStrLt u s
    · exact absurd h hc
    · rfl
  rcases pyStrLt_trichotomy t u with h3 | h3 | h3
  · have h4 := pyStrLt_trans h3 hus
    simp [h4] at h1
  · subst h3
    simp [hus] at h1
  · simp [h3] at h2

theorem pySorted_perm (f : α → α → Bool) (l : List α) :
    List.Perm (pySorted f l) l :=
  List.perm_insertionSort _ l

theorem pySorted_sorted (f : α → α → Bool)
    (htrans : ∀ a b c, f a b = true → f b c = true → f a c = true)
    (htot : ∀ a b, f a b = true ∨ f b a = true) (l : List α) :
    List.Sorted (fun a b => f a b = true) (pySorted f l) := by
  haveI : IsTotal α (fun a b => f a b = true) := ⟨htot⟩
  haveI : IsTrans α (fun a b => f a b = true) := ⟨fun a b c => htrans a b c⟩
  exact List.sorted_insertionSort _ l

theorem quantityDescLe_trans (a b c : ShoppingListItem)
    (h1 : quantityDescLe a b = true) (h2 : quantityDescLe b c = true) :
    quantityDescLe a c = true := by
  simp only [quantityDescLe, decide_eq_true_eq] at h1 h2 ⊢
  exact le_trans h2 h1

theorem quantityDescLe_total (a b : ShoppingListItem) :
    quantityDescLe a b = true ∨ quantityDescLe b a = true := by
  simp only [quantityDescLe, decide_eq_true_eq]
  exact le_total (quantityNum b) (quantityNum a)

theorem quantityStrLe_trans (a b c : ShoppingListItem)
    (h1 : quantityStrLe a b = true) (h2 : quantityStrLe b c = true) :
    quantityStrLe a c = true :=
  pyStrLe_trans h1 h2

theorem quantityStrLe_total (a b : ShoppingListItem) :
    quantityStrLe a b = true ∨ quantityStrLe b a = true :=
  pyStrLe_total a.total_quantity b.total_quantity

theorem shopPairLe_trans (a b c : ShoppingListItem)
    (h1 : shopPairLe a b = true) (h2 : shopPairLe b c = true) :
    shopPairLe a c = true := by
  simp only [shopPairLe, Bool.or_eq_true, Bool.and_eq_true, beq_iff_eq] at h1 h2 ⊢
  rcases h1 with h1 | ⟨h1e, h1n⟩
  · rcases h2 with h2 | ⟨h2e, h2n⟩
    · exact Or.inl (pyStrLt_trans h1 h2)
    · rw [h2e] at h1
      exact Or.inl h1
  · rcases h2 with h2 | ⟨h2e, h2n⟩
    · rw [h1e]
      exact Or.inl h2
    · exact Or.inr ⟨h1e.trans h2e, pyStrLe_trans h1n h2n⟩

theorem shopPairLe_total (a b : ShoppingListItem) :
    shopPairLe a b = true ∨ shopPairLe b a = true := by
  simp only [shopPairLe, Bool.or_eq_true, Bool.and_eq_true, beq_iff_eq]
  rcases pyStrLt_trichotomy (shopKey a) (shopKey b) with h | h | h
  · exact Or.inl (Or.inl h)
  · rcases pyStrLe_total (nameKey a) (nameKey b) with hn | hn
    · exact Or.inl (Or.inr ⟨h, hn⟩)
    · exact Or.inr (Or.inr ⟨h.symm, hn⟩)
  · exact Or.inr (Or.inl h)

theorem addAssignment_total (g : GroupData) (a : AssignmentRow) :
    (addAssignment g a).total_quantity = g.total_quantity + qtyVal a := by
  cases h : pyFloat? a.quantity with
  | none => simp [addAssignment, qtyVal, h]
  | some q => simp [addAssignment, qtyVal, h]

theorem keySum_append_ne {rows : List AssignmentRow} {a : AssignmentRow} {k : String}
    (h : groupKey a ≠ k) : keySum (rows ++ [a]) k = keySum rows k := by
  have hb : (groupKey a == k) = false := beq_eq_false_iff_ne.mpr h
  simp [keySum, List.filter_append, hb]

theorem keySum_append_eq (rows : List AssignmentRow) (a : AssignmentRow) :
    keySum (rows ++ [a]) (groupKey a) = keySum rows (groupKey a) + qtyVal a := by
  simp [keySum, List.filter_append]

theorem keySum_eq_zero {rows : List AssignmentRow} {k : String}
    (h : ∀ r ∈ rows, groupKey r ≠ k) : keySum rows k = 0 := by
  have hfil : rows.filter (fun r => groupKey r == k) = [] := by
    apply List.filter_eq_nil_iff.mpr
    intro r hr
    simp [beq_eq_false_iff_ne.mpr (h r hr)]
  simp [keySum, hfil]

theorem keyFirst_append_of_some {rows : List AssignmentRow} {a r0 : AssignmentRow}
    {k : String} (h : keyFirst rows k = some r0) :
    keyFirst (rows ++ [a]) k = some r0 := by
  rw [keyFirst, List.find?_append,
    show rows.find? (fun r => groupKey r == k) = some r0 from h]
  rfl

theorem keyFirst_append_none {rows : List AssignmentRow} {a : AssignmentRow}
    (h : keyFirst rows (groupKey a) = none) :
    keyFirst (rows ++ [a]) (groupKey a) = some a := by
  rw [keyFirst, List.find?_append,
    show rows.find? (fun r => groupKey r == groupKey a) = none from h]
  simp [List.find?]

theorem aggStep_eq (m : List (String × GroupData)) (a : AssignmentRow) :
    aggStep m a =
      (if m.any (fun p => p.1 == groupKey a) then m
       else m ++ [(groupKey a, initGroup a)]).map
        (fun p => if p.1 == groupKey a then (p.1, addAssignment p.2 a) else p) := rfl

theorem groupInv_append_of_ne {rows : List AssignmentRow} {a : AssignmentRow}
    {p : String × GroupData} (hne : p.1 ≠ groupKey a) (h : GroupInv rows p) :
    GroupInv (rows ++ [a]) p := by
  obtain ⟨he, ht, r0, hf, hs, hn, hu⟩ := h
  exact ⟨he, by rw [ht, keySum_append_ne (fun hx => hne hx.symm)],
    r0, keyFirst_append_of_some hf, hs, hn, hu⟩

theorem groupInv_append_of_eq {rows : List AssignmentRow} {a : AssignmentRow}
    {p : String × GroupData} (heq : p.1 = groupKey a) (h : GroupInv rows p) :
    GroupInv (rows ++ [a]) (p.1, addAssignment p.2 a) := by
  obtain ⟨he, ht, r0, hf, hs, hn, hu⟩ := h
  refine ⟨he, ?_, r0, keyFirst_append_of_some hf, hs, hn, hu⟩
  rw [addAssignment_total, ht, heq, keySum_append_eq]

theorem aggStep_inv {rows : List AssignmentRow} {m : List (String × GroupData)}
    {a : AssignmentRow} (h : AggInv rows m) : AggInv (rows ++ [a]) (aggStep m a) := by
  obtain ⟨hg, hc⟩ := h
  rw [aggStep_eq]
  by_cases hany : m.any (fun p => p.1 == groupKey a) = true
  · rw [if_pos hany]
    constructor
    · intro p' hp'
      obtain ⟨p, hp, rfl⟩ := List.mem_map.mp hp'
      by_cases hpk : (p.1 == groupKey a) = true
      · rw [if_pos hpk]
        exact groupInv_append_of_eq (beq_iff_eq.mp hpk) (hg p hp)
      · rw [if_neg hpk]
        exact groupInv_append_of_ne (fun hx => hpk (beq_iff_eq.mpr hx)) (hg p hp)
    · intro r hr
      rcases List.mem_append.mp hr with hr | hr
      · obtain ⟨p, hp, hpe⟩ := hc r hr
        refine ⟨if p.1 == groupKey a then (p.1, addAssignment p.2 a) else p,
          List.mem_map_of_mem _ hp, ?_⟩
        by_cases hpk : (p.1 == groupKey a) = true
        · rw [if_pos hpk]
          exact hpe
        · rw [if_neg hpk]
          exact hpe
      · obtain ⟨p, hp, hpk⟩ := List.any_eq_true.mp hany
        rw [List.mem_singleton.mp hr]
        refine ⟨(p.1, addAssignment p.2 a),
          List.mem_map.mpr ⟨p, hp, by rw [if_pos hpk]⟩, beq_iff_eq.mp hpk⟩
  · rw [if_neg hany]
    have hmk : ∀ p ∈ m, (p.1 == groupKey a) = false := by
      intro p hp
      rcases hb : (p.1 == groupKey a) with _ | _
      · rfl
      · exact absurd (List.any_eq_true.mpr ⟨p, hp, hb⟩) hany
    have hnone : ∀ r ∈ rows, groupKey r ≠ groupKey a := by
      intro r hr hx
      obtain ⟨p, hp, hpe⟩ := hc r hr
      have hb := hmk p hp
      rw [hpe, hx] at hb
      simp at hb
    constructor
    · intro p' hp'
      obtain ⟨p, hp, rfl⟩ := List.mem_map.mp hp'
      rcases List.mem_append.mp hp with hp | hp
      · rw [if_neg (by rw [hmk p hp]; exact Bool.false_ne_true)]
        exact groupInv_append_of_ne
          (fun hx => Bool.false_ne_true ((hmk p hp).symm.trans (beq_iff_eq.mpr hx)))
          (hg p hp)
      · rw [List.mem_singleton.mp hp]
        have hkk : ((groupKey a, initGroup a).1 == groupKey a) = true :=
          beq_iff_eq.mpr rfl
        rw [if_pos hkk]
        have hfn : keyFirst rows (groupKey a) = none := by
          apply List.find?_eq_none.mpr
          intro r hr
          simp [beq_eq_false_iff_ne.mpr (hnone r hr)]
        refine ⟨rfl, ?_, a, keyFirst_append_none hfn, rfl, rfl, rfl⟩
        rw [addAssignment_total, keySum_append_eq, keySum_eq_zero hnone]
        show (initGroup a).total_quantity + qtyVal a = 0 + qtyVal a
        rfl
    · intro r hr
      rcases List.mem_append.mp hr with hr | hr
      · obtain ⟨p, hp, hpe⟩ := hc r hr
        refine ⟨if p.1 == groupKey a then (p.1, addAssignment p.2 a) else p,
          List.mem_map_of_mem _ (List.mem_append_left _ hp), ?_⟩
        rw [if_neg (by rw [hmk p hp]; exact Bool.false_ne_true)]
        exact hpe
      · rw [List.mem_singleton.mp hr]
        refine ⟨(groupKey a, addAssignment (initGroup a) a),
          List.mem_map.mpr ⟨(groupKey a, initGroup a),
            List.mem_append_right _ (List.mem_singleton.mpr rfl),
            by rw [if_pos (beq_iff_eq.mpr rfl)]⟩, rfl⟩

theorem agg_inv (rows : List AssignmentRow) : AggInv rows (rows.foldl aggStep []) := by
  suffices h : ∀ (rest done : List AssignmentRow) (m : List (String × GroupData)),
      AggInv done m → AggInv (done ++ rest) (rest.foldl aggStep m) by
    have h0 : AggInv [] ([] : List (String × GroupData)) := by
      constructor
      · intro p hp
        exact absurd hp (List.not_mem_nil p)
      · intro r hr
        exact absurd hr (List.not_mem_nil r)
    simpa using h rows [] [] h0
  intro rest
  induction rest with
  | nil =>
    intro done m h
    simpa using h
  | cons a rest ih =>
    intro done m h
    have h2 := aggStep_inv (a := a) h
    have h3 := ih (done ++ [a]) (aggStep m a) h2
    simpa [List.append_assoc] using h3

theorem aggregateGroups_inv (rows : List AssignmentRow) {g : GroupData}
    (hg : g ∈ aggregateGroups rows) :
    g.total_quantity = keySum rows (g.ingredient_name ++ "_" ++ g.unit) ∧
    ∃ r0, keyFirst rows (g.ingredient_name ++ "_" ++ g.unit) = some r0 ∧
      g.shop_suggestion = r0.preferred_shop ∧
      g.ingredient_name = r0.ingredient_name ∧ g.unit = r0.unit := by
  obtain ⟨p, hp, rfl⟩ := List.mem_map.mp hg
  obtain ⟨he, ht, hf⟩ := (agg_inv rows).1 p hp
  rw [← he]
  exact ⟨ht, hf⟩

theorem underscore_split_inj (n1 : List Char) : ∀ {u1 : List Char} (n2 : List Char)
    {u2 : List Char}, '_' ∉ n1 → '_' ∉ n2 →
    n1 ++ '_' :: u1 = n2 ++ '_' :: u2 → n1 = n2 ∧ u1 = u2 := by
  induction n1 with
  | nil =>
    intro u1 n2 u2 h1 h2 he
    cases n2 with
    | nil => simpa using he
    | cons c n2 =>
      simp at he
      exact absurd (he.1 ▸ List.mem_cons_self c n2) h2
  | cons c n1 ih =>
    intro u1 n2 u2 h1 h2 he
    cases n2 with
    | nil =>
      simp at he
      exact absurd (he.1 ▸ List.mem_cons_self c n1) h1
    | cons d n2 =>
      simp at he
      obtain ⟨rfl, he2⟩ := he
      have h1x : '_' ∉ n1 := fun hx => h1 (List.mem_cons_of_mem _ hx)
      have h2x : '_' ∉ n2 := fun hx => h2 (List.mem_cons_of_mem _ hx)
      obtain ⟨rfl, hu⟩ := ih n2 h1x h2x he2
      exact ⟨rfl, hu⟩

theorem groupKey_pair_inj {n1 u1 n2 u2 : String}
    (h1 : ('_' : Char) ∉ n1.data) (h2 : ('_' : Char) ∉ n2.data)
    (he : n1 ++ "_" ++ u1 = n2 ++ "_" ++ u2) : n1 = n2 ∧ u1 = u2 := by
  have hd : n1.data ++ '_' :: u1.data = n2.data ++ '_' :: u2.data := by
    have hx := congrArg String.data he
    rw [String.data_append, String.data_append, String.data_append,
      String.data_append] at hx
    simpa using hx
  obtain ⟨ha, hb⟩ := underscore_split_inj n1.data n2.data h1 h2 hd
  exact ⟨String.ext ha, String.ext hb⟩

theorem addLineToSums_unit_irrelevant (cat : Catalog) (acc : RunningSums)
    (r : MealIngredient) (u : String) :
    addLineToSums cat acc { r with unit := u } = addLineToSums cat acc r := rfl

theorem foldl_sums_filter (cat : Catalog) (lines : List MealIngredient) :
    ∀ acc : RunningSums,
      lines.foldl (addLineToSums cat) acc =
        (lines.filter (fun mi => (resolveLine cat mi).isSome)).foldl
          (addLineToSums cat) acc := by
  induction lines with
  | nil =>
    intro acc
    rfl
  | cons mi lines ih =>
    intro acc
    cases hres : resolveLine cat mi with
    | none =>
      have hskip : addLineToSums cat acc mi = acc := by
        simp [addLineToSums, hres]
      simp only [List.foldl_cons, List.filter_cons, hres, Option.isSome_none,
        Bool.false_eq_true, if_false, hskip]
      exact ih acc
    | some v =>
      simp only [List.foldl_cons, List.filter_cons, hres, Option.isSome_some, if_true]
      exact ih (addLineToSums cat acc mi)

theorem toBase_ok {u : String} {f : ℚ} (q : ℚ)
    (h : conversion_factors.lookup u = some f) :
    toBaseQuantity q u = .ok (q * f) := by
  rw [toBaseQuantity, _get_unit_conversion_factor, h]
  rfl

theorem lookup_cons_ne {β : Type} {u k : String} {v : β} {es : List (String × β)}
    (h : u ≠ k) : List.lookup u ((k, v) :: es) = List.lookup u es := by
  simp [List.lookup, beq_eq_false_iff_ne.mpr h]

/-! ## Claim theorems -/

/-- Claim C1.  The claim says that a group containing an unparseable quantity
keeps the first-encountered quantity string as its total.  The code does not:
the `except (ValueError, TypeError)` arm is a bare `pass`, so unparseable
quantities are silently dropped and the group total is the numeric sum of the
parseable ones.  On the spec's own Oats example (50, 75, "a handful") the
group total is the float `125.0`, not the string `"50"`. -/
theorem c1_unparseable_quantities_are_dropped :
    pyFloat? "50" = some 50 ∧ pyFloat? "75" = some 75 ∧ pyFloat? "a handful" = none ∧
    aggregateGroups
        [⟨"2025-03-01", "Porridge", "Oats", "50", "g", none⟩,
         ⟨"2025-03-01", "Granola", "Oats", "75", "g", none⟩,
         ⟨"2025-03-02", "Cookies", "Oats", "a handful", "g", none⟩] =
      [⟨"Oats", "g", 125, none, ["Porridge", "Granola", "Cookies"],
        ["2025-03-01", "2025-03-02"]⟩] := by
  with_unfolding_all decide

/-- Claim C2 counterexample.  The claim says meal nutrition converts each
line's quantity to base units with the static table before scaling, so 1 kg
contributes like 1000 g.  In the code `_calculate_meal_nutrition` never
consults the unit: it scales by `quantity / 100.0` directly, so a 1 kg line
of a 100 kcal/100g item contributes 1 kcal while a 1000 g line contributes
1000 kcal — even though the conversion table itself does map kg to 1000. -/
theorem c2_kg_counterexample :
    _get_unit_conversion_factor "kg" = .ok 1000 ∧
    (_calculate_meal_nutrition c2Cat [⟨1, "ingredient", "Flour", 1, "kg"⟩]).calories_total
      = 1 ∧
    (_calculate_meal_nutrition c2Cat [⟨1, "ingredient", "Flour", 1000, "g"⟩]).calories_total
      = 1000 ∧
    _calculate_meal_nutrition c2Cat [⟨1, "ingredient", "Flour", 1, "kg"⟩] ≠
      _calculate_meal_nutrition c2Cat [⟨1, "ingredient", "Flour", 1000, "g"⟩] := by
  with_unfolding_all decide

/-- Claim C2 amended: meal nutrition totals are computed from
`quantity / 100` alone and are invariant under arbitrarily rewriting every
line's unit — the unit conversion table plays no part in the meal path. -/
theorem c2_amended (cat : Catalog) (lines : List MealIngredient)
    (f : MealIngredient → String) :
    _calculate_meal_nutrition cat (lines.map (fun r => { r with unit := f r })) =
      _calculate_meal_nutrition cat lines := by
  unfold _calculate_meal_nutrition
  rw [List.foldl_map]
  simp only [addLineToSums_unit_irrelevant]

/-- Claim C3.  On the spec's two-line Egg scenario the aggregation loop does
produce exactly the claimed group — name "Egg", unit "g", total 300, shop
"Market", meals {Omelette, Salad} and both dates — but
`aggregate_shopping_items` then raises a pydantic `ValidationError` instead
of returning the item, because the `ShoppingListItem(...)` call omits the
required `ingredient_id` field. -/
theorem c3_aggregate_validation_error :
    aggregate_shopping_items
        [⟨"2025-03-01", "Omelette", "Egg", "200", "g", some "Market"⟩,
         ⟨"2025-03-02", "Salad", "Egg", "100", "g", none⟩] =
      .error (.missingRequiredField "ingredient_id") ∧
    aggregateGroups
        [⟨"2025-03-01", "Omelette", "Egg", "200", "g", some "Market"⟩,
         ⟨"2025-03-02", "Salad", "Egg", "100", "g", none⟩] =
      [⟨"Egg", "g", 300, some "Market", ["Omelette", "Salad"],
        ["2025-03-01", "2025-03-02"]⟩] := by
  with_unfolding_all decide

/-- Claim C4 counterexample.  The grouping key is the single string
`f"{name}_{unit}"`, so the two distinct pairs ("a", "b_c") and ("a_b", "c")
collide into one group whose total (3) sums both lines — refuting the claim
that lines differing in ingredient name or unit are never merged. -/
theorem c4_collision_counterexample :
    (⟨"2025-03-01", "MealA", "a", "1", "b_c", none⟩ : AssignmentRow).ingredient_name ≠
      (⟨"2025-03-01", "MealB", "a_b", "2", "c", none⟩ : AssignmentRow).ingredient_name ∧
    (⟨"2025-03-01", "MealA", "a", "1", "b_c", none⟩ : AssignmentRow).unit ≠
      (⟨"2025-03-01", "MealB", "a_b", "2", "c", none⟩ : AssignmentRow).unit ∧
    aggregateGroups
        [⟨"2025-03-01", "MealA", "a", "1", "b_c", none⟩,
         ⟨"2025-03-01", "MealB", "a_b", "2", "c", none⟩] =
      [⟨"a", "b_c", 3, none, ["MealA", "MealB"], ["2025-03-01"]⟩] := by
  with_unfolding_all decide

/-- Claim C4 amended: when every quantity is numeric and no ingredient name
contains an underscore (so the concatenated key cannot collide), every
group's total is the arithmetic sum of exactly the line quantities whose
(ingredient name, unit) pair equals the group's pair, with pair equality the
exact string equality of name and unit. -/
theorem c4_amended (rows : List AssignmentRow)
    (hq : ∀ r ∈ rows, (pyFloat? r.quantity).isSome = true)
    (hu : ∀ r ∈ rows, ('_' : Char) ∉ r.ingredient_name.data) :
    ∀ g ∈ aggregateGroups rows,
      g.total_quantity =
        ((rows.filter (fun r =>
          r.ingredient_name == g.ingredient_name && r.unit == g.unit)).map qtyVal).sum := by
  intro g hg
  obtain ⟨ht, r0, hf, hs, hn, hun⟩ := aggregateGroups_inv rows hg
  rw [ht, keySum]
  congr 2
  apply List.filter_congr
  intro r hr
  have hgname : ('_' : Char) ∉ g.ingredient_name.data := by
    rw [hn]
    exact hu r0 (List.mem_of_find?_eq_some hf)
  rw [Bool.eq_iff_iff]
  simp only [beq_iff_eq, Bool.and_eq_true, groupKey]
  constructor
  · intro h
    exact groupKey_pair_inj (hu r hr) hgname h
  · intro h
    rw [h.1, h.2]

/-- Witness for `c4_amended` at `c4WitnessRows`: the Oats group's total, 125,
is the sum of exactly the two Oats/g quantities. -/
theorem c4_amended_witness :
    c4OatsGroup ∈ aggregateGroups c4WitnessRows ∧
    c4OatsGroup.total_quantity =
      ((c4WitnessRows.filter (fun r =>
        r.ingredient_name == c4OatsGroup.ingredient_name &&
          r.unit == c4OatsGroup.unit)).map qtyVal).sum :=
  ⟨by with_unfolding_all decide,
   c4_amended c4WitnessRows (by with_unfolding_all decide)
     (by with_unfolding_all decide) c4OatsGroup (by with_unfolding_all decide)⟩

/-- Claim C5 counterexample.  The claim says the group's shop suggestion is
the first non-empty hint among its lines.  The code sets `shop_suggestion`
once, from the group's first line, and never updates it: with a first Milk
line carrying no shop and a second carrying "Market", the aggregated shop
suggestion is `None`, not "Market". -/
theorem c5_shop_counterexample :
    (c5Rows.get ⟨0, by decide⟩).preferred_shop = none ∧
    (c5Rows.get ⟨1, by decide⟩).preferred_shop = some "Market" ∧
    (aggregateGroups c5Rows).map (fun g => g.shop_suggestion) = [none] := by
  with_unfolding_all decide

/-- Claim C5 amended: every aggregated group's shop suggestion is exactly the
`preferred_shop` of the first line of its group in encounter order — carried
even when it is absent; later lines' hints are never consulted. -/
theorem c5_amended (rows : List AssignmentRow) :
    ∀ g ∈ aggregateGroups rows,
      ∃ r0, keyFirst rows (g.ingredient_name ++ "_" ++ g.unit) = some r0 ∧
        g.shop_suggestion = r0.preferred_shop := by
  intro g hg
  obtain ⟨ht, r0, hf, hs, hn, hun⟩ := aggregateGroups_inv rows hg
  exact ⟨r0, hf, hs⟩

/-- Witness for `c5_amended` at `c5Rows`: the Milk group's suggestion is the
first line's absent shop. -/
theorem c5_amended_witness :
    c5MilkGroup ∈ aggregateGroups c5Rows ∧
    ∃ r0, keyFirst c5Rows (c5MilkGroup.ingredient_name ++ "_" ++ c5MilkGroup.unit)
        = some r0 ∧
      c5MilkGroup.shop_suggestion = r0.preferred_shop :=
  ⟨by with_unfolding_all decide,
   c5_amended c5Rows c5MilkGroup (by with_unfolding_all decide)⟩

/-- Claim C6: sorting by the quantity key orders descending by numeric value
when every item's summed quantity parses as a float, orders ascending by
plain lexicographic comparison of the raw quantity strings when at least one
does not parse, and in both branches returns a permutation of the input. -/
theorem c6_quantity_sort (items : List ShoppingListItem) :
    ((∀ x ∈ items, (pyFloat? x.total_quantity).isSome = true) →
      List.Sorted (fun a b => quantityNum b ≤ quantityNum a)
        (_sort_shopping_items items .quantity)) ∧
    ((¬ ∀ x ∈ items, (pyFloat? x.total_quantity).isSome = true) →
      List.Sorted (fun a b => pyStrLe a.total_quantity b.total_quantity = true)
        (_sort_shopping_items items .quantity)) ∧
    List.Perm (_sort_shopping_items items .quantity) items := by
  refine ⟨?_, ?_, ?_⟩
  · intro h
    have hall : items.all (fun x => (pyFloat? x.total_quantity).isSome) = true :=
      List.all_eq_true.mpr h
    have hs := pySorted_sorted quantityDescLe quantityDescLe_trans quantityDescLe_total items
    simp only [_sort_shopping_items, hall, if_true]
    exact hs.imp (fun hab => by
      simpa [quantityDescLe, decide_eq_true_eq] using hab)
  · intro h
    have hall : items.all (fun x => (pyFloat? x.total_quantity).isSome) = false := by
      by_contra hc
      have hb : items.all (fun x => (pyFloat? x.total_quantity).isSome) = true := by
        cases hx : items.all (fun x => (pyFloat? x.total_quantity).isSome)
        · exact absurd hx hc
        · rfl
      exact h (List.all_eq_true.mp hb)
    have hs := pySorted_sorted quantityStrLe quantityStrLe_trans quantityStrLe_total items
    simp only [_sort_shopping_items, hall, if_false]
    exact hs.imp (fun hab => hab)
  · simp only [_sort_shopping_items]
    by_cases hall : items.all (fun x => (pyFloat? x.total_quantity).isSome) = true
    · simp only [hall, if_true]
      exact pySorted_perm quantityDescLe items
    · simp only [Bool.not_eq_true] at hall
      simp only [hall, if_false]
      exact pySorted_perm quantityStrLe items

/-- Witness for `c6_quantity_sort`: a fully numeric list sorted descending,
and a list with "a handful" sorted ascending by the raw strings. -/
theorem c6_quantity_sort_witness :
    List.Sorted (fun a b => quantityNum b ≤ quantityNum a)
      (_sort_shopping_items [mkSortItem "a" "3" none, mkSortItem "b" "10" none]
        .quantity) ∧
    List.Sorted (fun a b => pyStrLe a.total_quantity b.total_quantity = true)
      (_sort_shopping_items
        [mkSortItem "a" "3" none, mkSortItem "b" "a handful" none] .quantity) :=
  ⟨(c6_quantity_sort [mkSortItem "a" "3" none, mkSortItem "b" "10" none]).1
     (by with_unfolding_all decide),
   (c6_quantity_sort [mkSortItem "a" "3" none, mkSortItem "b" "a handful" none]).2.1
     (by with_unfolding_all decide)⟩

/-- Claim C7 counterexample.  Missing shops are replaced by the sentinel
`"zzz"` before sorting, so an item whose real shop sorts after "zzz" —
here "zzzz" — comes after a shopless item, refuting "no-shop items sort
last, regardless of what the shop names are". -/
theorem c7_shop_sort_counterexample :
    (mkSortItem "apple" "1" (some "zzzz")).shop_suggestion.isSome = true ∧
    (mkSortItem "banana" "1" none).shop_suggestion = none ∧
    _sort_shopping_items
        [mkSortItem "apple" "1" (some "zzzz"), mkSortItem "banana" "1" none]
        .shop_suggestion
      = [mkSortItem "banana" "1" none, mkSortItem "apple" "1" (some "zzzz")] := by
  with_unfolding_all decide

/-- Claim C7 amended: the shop sort orders ascending by the Python pair
`(shop_suggestion or "zzz", ingredient_name.lower())` and permutes the
input; items without a shop (or with an empty one) sort as if their shop
were "zzz", so they come last only relative to shop names below "zzz". -/
theorem c7_shop_sort_amended (items : List ShoppingListItem) :
    List.Sorted (fun a b => shopPairLe a b = true)
      (_sort_shopping_items items .shop_suggestion) ∧
    List.Perm (_sort_shopping_items items .shop_suggestion) items :=
  ⟨pySorted_sorted shopPairLe shopPairLe_trans shopPairLe_total items,
   pySorted_perm shopPairLe items⟩

/-- Claim C8: for positive quantities, conversion to base grams-or-millilitres
succeeds exactly on the ten `UnitEnum` values, returning the quantity times
the static table factor (with kg mapping to 1000, tbsp to 15, piece to 100
and g/ml to 1), and fails with the unsupported-unit error on every other
unit. -/
theorem c8_unit_conversion (q : ℚ) (hq : 0 < q) (u : String) :
    (u ∈ unitEnumValues →
      ∃ f, conversion_factors.lookup u = some f ∧ toBaseQuantity q u = .ok (q * f)) ∧
    (u ∉ unitEnumValues → toBaseQuantity q u = .error (.unsupportedUnit u)) ∧
    toBaseQuantity q "g" = .ok (q * 1) ∧
    toBaseQuantity q "ml" = .ok (q * 1) ∧
    toBaseQuantity q "kg" = .ok (q * 1000) ∧
    toBaseQuantity q "tbsp" = .ok (q * 15) ∧
    toBaseQuantity q "piece" = .ok (q * 100) := by
  refine ⟨?_, ?_, toBase_ok q rfl, toBase_ok q rfl, toBase_ok q rfl,
    toBase_ok q rfl, toBase_ok q rfl⟩
  · intro hm
    simp only [unitEnumValues, List.mem_cons, List.not_mem_nil, or_false] at hm
    rcases hm with rfl | rfl | rfl | rfl | rfl | rfl | rfl | rfl | rfl | rfl
    · exact ⟨1, rfl, toBase_ok q rfl⟩
    · exact ⟨1, rfl, toBase_ok q rfl⟩
    · exact ⟨100, rfl, toBase_ok q rfl⟩
    · exact ⟨15, rfl, toBase_ok q rfl⟩
    · exact ⟨5, rfl, toBase_ok q rfl⟩
    · exact ⟨240, rfl, toBase_ok q rfl⟩
    · exact ⟨2835 / 100, rfl, toBase_ok q rfl⟩
    · exact ⟨4536 / 10, rfl, toBase_ok q rfl⟩
    · exact ⟨1000, rfl, toBase_ok q rfl⟩
    · exact ⟨1000, rfl, toBase_ok q rfl⟩
  · intro hm
    simp only [unitEnumValues, List.mem_cons, List.not_mem_nil, or_false,
      not_or] at hm
    obtain ⟨h1, h2, h3, h4, h5, h6, h7, h8, h9, h10⟩ := hm
    have hnone : conversion_factors.lookup u = none := by
      rw [conversion_factors, lookup_cons_ne h1, lookup_cons_ne h2,
        lookup_cons_ne h9, lookup_cons_ne h10, lookup_cons_ne h3,
        lookup_cons_ne h4, lookup_cons_ne h5, lookup_cons_ne h6,
        lookup_cons_ne h7, lookup_cons_ne h8]
      rfl
    rw [toBaseQuantity, _get_unit_conversion_factor, hnone]
    rfl

/-- Witness for `c8_unit_conversion` at `q = 3`: 3 kg converts to 3000 and
the made-up unit "stone" is rejected. -/
theorem c8_unit_conversion_witness :
    toBaseQuantity 3 "kg" = .ok (3 * 1000) ∧
    toBaseQuantity 3 "stone" = .error (.unsupportedUnit "stone") :=
  ⟨(c8_unit_conversion 3 (by norm_num) "kg").2.2.2.2.1,
   (c8_unit_conversion 3 (by norm_num) "stone").2.1 (by decide)⟩

/-- Claim C9 counterexample.  The claim says the nutrition scaling operation
performs no input validation and returns scaled values even for quantities
at or below zero.  The code's first statement is `if quantity <= 0: raise
InvalidQuantityError(quantity)`: at quantity 0 (and -5) it raises instead of
returning. -/
theorem c9_rejects_nonpositive_counterexample :
    calculate_ingredient_nutrition_for_quantity c9Ing 0 "g" =
      .error (.invalidQuantity 0) ∧
    calculate_ingredient_nutrition_for_quantity c9Ing (-5) "g" =
      .error (.invalidQuantity (-5)) := by
  with_unfolding_all decide

/-- Claim C9 amended: the calculator validates its quantity — every quantity
at or below zero raises `InvalidQuantityError` — and for positive quantities
with a supported unit it returns the profile fields and calories multiplied
by `quantity * factor / 100` with no further validation of the profile. -/
theorem c9_amended (ing : IngredientInfo) (q : ℚ) (u : String) :
    (q ≤ 0 →
      calculate_ingredient_nutrition_for_quantity ing q u =
        .error (.invalidQuantity q)) ∧
    (0 < q → ∀ f, conversion_factors.lookup u = some f →
      calculate_ingredient_nutrition_for_quantity ing q u =
        .ok ⟨ing.calories_per_100g_or_ml * (q * f / 100),
             ing.macros_per_100g_or_ml.protein_g * (q * f / 100),
             ing.macros_per_100g_or_ml.carbohydrates_g * (q * f / 100),
             ing.macros_per_100g_or_ml.fat_g * (q * f / 100), q, u⟩) := by
  constructor
  · intro h
    rw [calculate_ingredient_nutrition_for_quantity, if_pos h]
  · intro h f hf
    rw [calculate_ingredient_nutrition_for_quantity, if_neg (not_le.mpr h),
      _get_unit_conversion_factor, hf]

/-- Witness for `c9_amended`: quantity -1 raises, quantity 2 kg returns the
profile scaled by `2 * 1000 / 100`. -/
theorem c9_amended_witness :
    calculate_ingredient_nutrition_for_quantity c9Ing (-1) "g" =
      .error (.invalidQuantity (-1)) ∧
    calculate_ingredient_nutrition_for_quantity c9Ing 2 "kg" =
      .ok ⟨c9Ing.calories_per_100g_or_ml * (2 * 1000 / 100),
           c9Ing.macros_per_100g_or_ml.protein_g * (2 * 1000 / 100),
           c9Ing.macros_per_100g_or_ml.carbohydrates_g * (2 * 1000 / 100),
           c9Ing.macros_per_100g_or_ml.fat_g * (2 * 1000 / 100), 2, "kg"⟩ :=
  ⟨(c9_amended c9Ing (-1) "g").1 (by norm_num),
   (c9_amended c9Ing 2 "kg").2 (by norm_num) 1000 rfl⟩

/-- Claim C10: a composition line whose catalog lookup fails is skipped
without error — the meal totals equal the totals of the resolvable lines
alone — and a meal none of whose lines resolve yields zero totals. -/
theorem c10_unresolvable_skipped (cat : Catalog) (lines : List MealIngredient) :
    _calculate_meal_nutrition cat lines =
      _calculate_meal_nutrition cat
        (lines.filter (fun mi => (resolveLine cat mi).isSome)) ∧
    ((∀ mi ∈ lines, resolveLine cat mi = none) →
      _calculate_meal_nutrition cat lines = ⟨0, zeroMacros⟩) := by
  constructor
  · unfold _calculate_meal_nutrition
    rw [foldl_sums_filter]
  · intro h
    have hfil : lines.filter (fun mi => (resolveLine cat mi).isSome) = [] :=
      List.filter_eq_nil_iff.mpr (fun mi hmi => by simp [h mi hmi])
    have h1 : _calculate_meal_nutrition cat lines = _calculate_meal_nutrition cat [] := by
      unfold _calculate_meal_nutrition
      rw [foldl_sums_filter, hfil]
    rw [h1]
    have h0 : pyRound2 0 = 0 := by with_unfolding_all decide
    show (⟨pyRound2 0, pyRound2 0, pyRound2 0, pyRound2 0, pyRound2 0,
      pyRound2 0, pyRound2 0⟩ : MealNutritionTotals) = ⟨0, zeroMacros⟩
    rw [h0]
    rfl

/-- Witness for `c10_unresolvable_skipped`: a meal whose only line references
an item absent from the (empty) catalog computes zero totals. -/
theorem c10_unresolvable_skipped_witness :
    _calculate_meal_nutrition c10Cat [⟨1, "ingredient", "Ghost", 50, "g"⟩] =
      ⟨0, zeroMacros⟩ :=
  (c10_unresolvable_skipped c10Cat [⟨1, "ingredient", "Ghost", 50, "g"⟩]).2
    (by with_unfolding_all decide)

end MealInsights
